import Mathlib

/-!
Verification of the goodwe inverter protocol layer (src/goodwe/protocol.py).

The development shallowly embeds the protocol code:
bytes become `List Nat` (each element a byte value), Python ints become
`Nat`/`Int`, fallible operations return `Option` (with `none` standing for a
raised exception), and the asynchronous UDP/TCP session classes become
explicit state records with one Lean function per callback.
-/

/-! ## Error and future model

`ExcKind` covers the two exception classes the session code stores into the
pending future itself: `MaxRetriesException` and `RequestRejectedException`.
`FutureState` is the state of an `asyncio` future: pending, resolved with
data, failed with an exception, or cancelled.
-/

inductive ExcKind
  | maxRetries
  | rejected
deriving DecidableEq, Repr

inductive FutureState
  | pending
  | result (data : List Nat)
  | exception (e : ExcKind)
  | cancelled
deriving DecidableEq, Repr

/-- `Future.done()`: a future is done unless it is still pending. -/
def FutureState.done : FutureState → Bool
  | .pending => false
  | _ => true

/-! ## UDP session (`UdpInverterProtocol`)

State of one in-flight request on the UDP session.  `sentCount` counts the
`sendto` calls (transmissions of the request) and `timersArmed` counts the
`call_later` timer arms; both are observation counters driven exactly by the
places the source calls them.
-/

structure UdpState where
  retries : Nat
  retry : Nat
  transportOpen : Bool
  future : FutureState
  sentCount : Nat
  timersArmed : Nat
deriving DecidableEq, Repr

/-- `UdpInverterProtocol._close_transport`: closes the transport when one is
open, then cancels the response future when it is not yet done. -/
def udp_close_transport (s : UdpState) : UdpState :=
  let s1 : UdpState := { s with transportOpen := false }
  if s1.future.done then s1 else { s1 with future := .cancelled }

/-- `UdpInverterProtocol._send_request`: transmits the current command on the
transport (`sendto`) and arms a fresh `call_later` timeout timer. -/
def udp_send_one (s : UdpState) : UdpState :=
  { s with sentCount := s.sentCount + 1, timersArmed := s.timersArmed + 1 }

/-- Outcome of `self.command.validator(data)`: returns true, returns false,
or raises `RequestRejectedException`. -/
inductive ValidatorOutcome
  | accept
  | invalid
  | reject
deriving DecidableEq, Repr

/-- `UdpInverterProtocol.datagram_received`: on a valid datagram resolve the
future; on an invalid one increment the retry counter and resend
(`_send_request`); on a rejection store the exception.  In every case the
method then falls through to the unconditional `self._close_transport()`. -/
def udp_datagram_received (v : ValidatorOutcome) (data : List Nat) (s : UdpState) : UdpState :=
  match v with
  | .accept => udp_close_transport { s with future := .result data }
  | .invalid => udp_close_transport (udp_send_one { s with retry := s.retry + 1 })
  | .reject => udp_close_transport { s with future := .exception .rejected }

/-- `UdpInverterProtocol._retry_mechanism` (timeout timer fired): when the
future is done only close the transport; when retries remain increment the
counter and resend; otherwise store `MaxRetriesException` and close. -/
def udp_retry_mechanism (s : UdpState) : UdpState :=
  if s.future.done then udp_close_transport s
  else if s.retry < s.retries then udp_send_one { s with retry := s.retry + 1 }
  else udp_close_transport { s with future := .exception .maxRetries }

/-- `UdpInverterProtocol.send_request` up to the `await`: connect (transport
open), create a fresh pending future, reset the retry counter to 0 and call
`_send_request` once. -/
def udp_start (retries : Nat) : UdpState :=
  udp_send_one
    { retries := retries, retry := 0, transportOpen := true,
      future := .pending, sentCount := 0, timersArmed := 0 }

/-- Iterated firing of the timeout timer (`_retry_mechanism`), front first. -/
def udp_fire_timers : Nat → UdpState → UdpState
  | 0, s => s
  | n + 1, s => udp_fire_timers n (udp_retry_mechanism s)

/-! ## `ProtocolCommand.execute`

`execute` awaits the session future.  `SendOutcome` is what that await plus
`response_future.result()` can produce: a value (possibly `None`), a raised
`CancelledError`, `ConnectionRefusedError`, `MaxRetriesException` or
`RequestRejectedException`.  `ExecError` is what the caller of `execute` can
observe.  The source string surrounds the request hex with single quote
characters; the quote characters are elided here. -/

inductive SendOutcome
  | value (data : Option (List Nat))
  | cancelled
  | connectionRefused
  | maxRetries
  | rejected
deriving DecidableEq, Repr

inductive ExecError
  | requestFailed (msg : String)
  | maxRetries
  | rejected
  | cancelled
  | connectionRefused
deriving DecidableEq, Repr

def noResponseMsg (hex : String) : String :=
  "No response received to " ++ hex ++ " request."

def noValidResponseMsg (hex : String) : String :=
  "No valid response received to " ++ hex ++ " request."

/-- `ProtocolCommand.execute`: a non-`None` result is wrapped into a
response; a `None` result raises `RequestFailedException` (no response);
`CancelledError` and `ConnectionRefusedError` are caught and re-raised as
`RequestFailedException` (no valid response); every other exception
(max-retries, rejection) propagates unchanged. -/
def command_execute (hex : String) : SendOutcome → Except ExecError (List Nat)
  | .value (some d) => .ok d
  | .value none => .error (.requestFailed (noResponseMsg hex))
  | .cancelled => .error (.requestFailed (noValidResponseMsg hex))
  | .connectionRefused => .error (.requestFailed (noValidResponseMsg hex))
  | .maxRetries => .error .maxRetries
  | .rejected => .error .rejected

/-- What `await response_future` followed by `result()` yields for each
future state (`none` while the future is still pending: the caller stays
suspended). -/
def outcomeOfFuture : FutureState → Option SendOutcome
  | .pending => none
  | .result d => some (.value (some d))
  | .exception .maxRetries => some .maxRetries
  | .exception .rejected => some .rejected
  | .cancelled => some .cancelled

/-! ## TCP session (`TcpInverterProtocol`) -/

structure TcpState where
  retries : Nat
  retry : Nat
  connected : Bool
  future : FutureState
  connectAttempts : Nat
deriving DecidableEq, Repr

/-- `TcpInverterProtocol._close_transport`: close the connection and cancel a
still-pending future. -/
def tcp_close_transport (s : TcpState) : TcpState :=
  let s1 : TcpState := { s with connected := false }
  if s1.future.done then s1 else { s1 with future := .cancelled }

/-- `TcpInverterProtocol._timeout_mechanism` (timer fired): when the future
is done reset the retry counter to 0, otherwise close the transport. -/
def tcp_timeout_mechanism (s : TcpState) : TcpState :=
  if s.future.done then { s with retry := 0 } else tcp_close_transport s

/-- One `connect + send + await` cycle of `TcpInverterProtocol.send_request`
can complete with a validated response (`data_received` with a true
validator), raise `ConnectionRefusedError` from the connect, or end in a
`CancelledError` on the awaited future (broken connection). -/
inductive TcpAttempt
  | ok (d : List Nat)
  | refused
  | broken
deriving DecidableEq, Repr

/-- `TcpInverterProtocol._max_retries_reached`: close the transport and
return a fresh future failed with `MaxRetriesException`. -/
def tcp_max_retries_reached (s : TcpState) : TcpState :=
  { (tcp_close_transport s) with future := .exception .maxRetries }

/-- `TcpInverterProtocol.send_request`, driven by the oracle list of per-cycle
outcomes.  A successful cycle runs `data_received` on a valid response:
`self._retry = 0`, resolve the future, leave the connection open.  On
`ConnectionRefusedError`: while retries remain increment the counter and
re-invoke `send_request`, else `_max_retries_reached`.  On `CancelledError`:
the same, except the transport is additionally closed before the
re-invocation. -/
def tcp_send_request : List TcpAttempt → TcpState → TcpState
  | [], s => s
  | .ok d :: _, s =>
      { s with connected := true, retry := 0, future := .result d,
               connectAttempts := s.connectAttempts + 1 }
  | .refused :: rest, s =>
      if s.retry < s.retries then
        tcp_send_request rest
          { s with retry := s.retry + 1, connectAttempts := s.connectAttempts + 1 }
      else
        tcp_max_retries_reached { s with connectAttempts := s.connectAttempts + 1 }
  | .broken :: rest, s =>
      if s.retry < s.retries then
        tcp_send_request rest
          (tcp_close_transport
            { s with retry := s.retry + 1, connectAttempts := s.connectAttempts + 1 })
      else
        tcp_max_retries_reached { s with connectAttempts := s.connectAttempts + 1 }

/-! ## Legacy (AA55) framing -/

/-- Request header `AA 55 C0 7F`. -/
def aa55ReqHeader : List Nat := [170, 85, 192, 127]

/-- `Aa55ProtocolCommand._checksum`: plain byte sum encoded by
`int.to_bytes(2, byteorder="big", signed=False)`, which raises
`OverflowError` (here: `none`) when the sum does not fit 2 bytes. -/
def aa55_checksum (data : List Nat) : Option (List Nat) :=
  if data.sum < 65536 then some [data.sum / 256, data.sum % 256] else none

/-- `Aa55ProtocolCommand.__init__`: request bytes are header + payload +
checksum of header + payload. -/
def aa55_request (payload : List Nat) : Option (List Nat) :=
  (aa55_checksum (aa55ReqHeader ++ payload)).map
    (fun cs => aa55ReqHeader ++ payload ++ cs)

/-- `Aa55ReadCommand.__init__` payload for `offset < 2^16`, `count < 2^8`:
hex string `011A03` + offset in 4 hex digits + count in 2 hex digits. -/
def aa55_read_payload (offset count : Nat) : List Nat :=
  [1, 26, 3, offset / 256, offset % 256, count]

/-- `int.from_bytes(b, byteorder="big", signed=True)` for two bytes. -/
def bytesToIntSigned2 (hi lo : Nat) : Int :=
  if hi * 256 + lo < 32768 then (hi * 256 + lo : Int) else (hi * 256 + lo : Int) - 65536

/-- Signed big-endian reading of a two byte list (`data[-2:]`). -/
def intFrom2BytesSigned (l : List Nat) : Int :=
  bytesToIntSigned2 (l.getD 0 0) (l.getD 1 0)

/-- Checksum comparison of `Aa55ProtocolCommand._validate_response`: the
plain sum of all bytes except the last two, compared against the trailing
two bytes read as a signed 16-bit big-endian integer. -/
def aa55_checksum_ok (data : List Nat) : Bool :=
  ((data.take (data.length - 2)).sum : Int) = intFrom2BytesSigned (data.drop (data.length - 2))

/-- Response-type check of `Aa55ProtocolCommand._validate_response`: when a
response type is expected (`elif response_type:`), compare it against bytes
4-5 read as a signed 16-bit big-endian integer; mismatch means rejection. -/
def aa55_rt_mismatch (data : List Nat) : Option Nat → Bool
  | some r => decide ((r : Int) ≠ bytesToIntSigned2 (data.getD 4 0) (data.getD 5 0))
  | none => false

/-- `Aa55ProtocolCommand._validate_response`.  `rt` is
`int(response_type, 16)` when the response-type string is non-empty, else
`none`.  The result `none` models an uncaught `IndexError`: when the length
guard fires, the `logger.debug` call eagerly evaluates its argument
`data[6] + 9`, which raises for inputs shorter than 7 bytes. -/
def aa55_validate_response (data : List Nat) (rt : Option Nat) : Option Bool :=
  if data.length ≤ 8 ∨ data.length ≠ data.getD 6 0 + 9 then
    if data.length ≤ 6 then none else some false
  else if aa55_rt_mismatch data rt then some false
  else if aa55_checksum_ok data then some true else some false

/-- `Aa55ProtocolCommand.trim_response`: Python slice `raw_response[7:-2]`. -/
def aa55_trim_response (raw : List Nat) : List Nat :=
  (raw.take (raw.length - 2)).drop 7

/-- `ModbusProtocolCommand.trim_response`: Python slice `raw_response[5:-2]`. -/
def modbus_trim_response (raw : List Nat) : List Nat :=
  (raw.take (raw.length - 2)).drop 5

/-- `ProtocolCommand.get_offset`: identity. -/
def protocol_get_offset (address : Int) : Int := address

/-- `ModbusProtocolCommand.get_offset`: `(address - self.first_address) * 2`. -/
def modbus_get_offset (first_address address : Int) : Int :=
  (address - first_address) * 2

/-! ## Frames of the legacy response layout

`mkAa55FrameCS` is a response frame with explicit trailing checksum bytes;
`mkAa55Frame` fills in the checksum prescribed by the spec text: the byte
sum of everything before it, reduced modulo 2^16, big-endian. -/

def mkAa55FrameCS (rtHi rtLo : Nat) (payload : List Nat) (c0 c1 : Nat) : List Nat :=
  170 :: 85 :: 127 :: 192 :: rtHi :: rtLo :: payload.length :: (payload ++ [c0, c1])

/-- Byte sum of a legacy response frame without its trailing checksum:
header `AA 55 7F C0` sums to 574. -/
def aa55FrameSum (rtHi rtLo : Nat) (payload : List Nat) : Nat :=
  574 + rtHi + rtLo + payload.length + payload.sum

def mkAa55Frame (rtHi rtLo : Nat) (payload : List Nat) : List Nat :=
  mkAa55FrameCS rtHi rtLo payload
    (aa55FrameSum rtHi rtLo payload % 65536 / 256)
    (aa55FrameSum rtHi rtLo payload % 65536 % 256)

/-! ## Helper lemmas -/

theorem list_sum_set (l : List Nat) (i b : Nat) (h : i < l.length) :
    (l.set i b).sum + l.getD i 0 = l.sum + b := by
  induction l generalizing i with
  | nil => simp at h
  | cons x t ih =>
    cases i with
    | zero => simp [List.getD_cons_zero]; omega
    | succ n =>
      have ht : n < t.length := by simpa using h
      have := ih n ht
      simp only [List.set_cons_succ, List.sum_cons, List.getD_cons_succ]
      omega

theorem mkCS_length (rtHi rtLo c0 c1 : Nat) (payload : List Nat) :
    (mkAa55FrameCS rtHi rtLo payload c0 c1).length = payload.length + 9 := by
  simp [mkAa55FrameCS]

theorem mkCS_as_append (rtHi rtLo c0 c1 : Nat) (payload : List Nat) :
    mkAa55FrameCS rtHi rtLo payload c0 c1 =
      [170, 85, 127, 192, rtHi, rtLo, payload.length] ++ (payload ++ [c0, c1]) := rfl

theorem mkCS_take (rtHi rtLo c0 c1 : Nat) (payload : List Nat) :
    (mkAa55FrameCS rtHi rtLo payload c0 c1).take (payload.length + 7) =
      [170, 85, 127, 192, rtHi, rtLo, payload.length] ++ payload := by
  rw [mkCS_as_append]
  have h2 : payload.length + 7 =
      ([170, 85, 127, 192, rtHi, rtLo, payload.length] : List Nat).length + payload.length := by
    simp only [List.length_cons, List.length_nil]
    omega
  rw [h2, List.take_append, List.take_left]

theorem mkCS_drop (rtHi rtLo c0 c1 : Nat) (payload : List Nat) :
    (mkAa55FrameCS rtHi rtLo payload c0 c1).drop (payload.length + 7) = [c0, c1] := by
  rw [mkCS_as_append]
  have h2 : payload.length + 7 =
      ([170, 85, 127, 192, rtHi, rtLo, payload.length] : List Nat).length + payload.length := by
    simp only [List.length_cons, List.length_nil]
    omega
  rw [h2, List.drop_append, List.drop_left]

theorem aa55_checksum_ok_mkCS (rtHi rtLo c0 c1 : Nat) (payload : List Nat) :
    aa55_checksum_ok (mkAa55FrameCS rtHi rtLo payload c0 c1) =
      decide ((aa55FrameSum rtHi rtLo payload : Int) = bytesToIntSigned2 c0 c1) := by
  unfold aa55_checksum_ok
  rw [mkCS_length]
  have h : payload.length + 9 - 2 = payload.length + 7 := by omega
  rw [h, mkCS_take, mkCS_drop]
  have hs : (([170, 85, 127, 192, rtHi, rtLo, payload.length] : List Nat) ++ payload).sum =
      aa55FrameSum rtHi rtLo payload := by
    simp only [List.sum_append, List.sum_cons, List.sum_nil, aa55FrameSum]
    omega
  rw [hs]
  rfl

theorem aa55_validate_mkCS (rtHi rtLo c0 c1 r : Nat) (payload : List Nat)
    (hr : (r : Int) = bytesToIntSigned2 rtHi rtLo) :
    aa55_validate_response (mkAa55FrameCS rtHi rtLo payload c0 c1) (some r) =
      if (aa55FrameSum rtHi rtLo payload : Int) = bytesToIntSigned2 c0 c1
      then some true else some false := by
  unfold aa55_validate_response
  rw [if_neg]
  · have hrt : aa55_rt_mismatch (mkAa55FrameCS rtHi rtLo payload c0 c1) (some r) = false := by
      unfold aa55_rt_mismatch
      have h4 : (mkAa55FrameCS rtHi rtLo payload c0 c1).getD 4 0 = rtHi := rfl
      have h5 : (mkAa55FrameCS rtHi rtLo payload c0 c1).getD 5 0 = rtLo := rfl
      rw [h4, h5, ← hr]
      simp
    rw [hrt]
    simp only [Bool.false_eq_true, if_false]
    rw [aa55_checksum_ok_mkCS]
    by_cases hP : (aa55FrameSum rtHi rtLo payload : Int) = bytesToIntSigned2 c0 c1
    · rw [if_pos hP, if_pos (by simpa using hP)]
    · rw [if_neg hP, if_neg (by simpa using hP)]
  · have h6 : (mkAa55FrameCS rtHi rtLo payload c0 c1).getD 6 0 = payload.length := rfl
    rw [mkCS_length, h6]
    omega

/-! ## Claims -/

set_option maxRecDepth 8000 in
/-- C3 counterexample: for a payload whose header+payload byte sum is
66364 ≥ 2^16, building the request does not succeed with the wrapped
checksum (or any value): `int.to_bytes(2, ...)` raises `OverflowError`, so
`aa55_request` is `none`. -/
theorem c3_counterexample :
    aa55_request (List.replicate 258 255) = none ∧
    65536 ≤ (aa55ReqHeader ++ List.replicate 258 255).sum := by
  constructor
  · decide
  · decide

/-- C3 amended: the legacy request builder appends the 2-byte big-endian
checksum equal to the byte sum (which equals the sum taken modulo 2^16)
whenever that sum is below 2^16; when the sum is 2^16 or larger, building
the request fails (`OverflowError` raised by `to_bytes`) instead of
wrapping. -/
theorem c3_amended_checksum (payload : List Nat) :
    ((aa55ReqHeader ++ payload).sum < 65536 →
      aa55_request payload =
        some (aa55ReqHeader ++ payload ++
          [(aa55ReqHeader ++ payload).sum % 65536 / 256,
           (aa55ReqHeader ++ payload).sum % 65536 % 256])) ∧
    (65536 ≤ (aa55ReqHeader ++ payload).sum → aa55_request payload = none) := by
  constructor <;> intro h
  · unfold aa55_request aa55_checksum
    rw [if_pos h, Nat.mod_eq_of_lt h]
    simp [Nat.mod_mod_of_dvd]
  · unfold aa55_request aa55_checksum
    rw [if_neg (by omega)]
    rfl

/-- C3 amended, witnessed at the empty payload (header sum 574 < 2^16). -/
theorem c3_amended_checksum_witness :
    aa55_request [] =
      some (aa55ReqHeader ++ [] ++
        [(aa55ReqHeader ++ ([] : List Nat)).sum % 65536 / 256,
         (aa55ReqHeader ++ ([] : List Nat)).sum % 65536 % 256]) :=
  (c3_amended_checksum []).1 (by decide)

/-- C5: the Modbus register-to-byte-offset mapping is linear with stride 2
relative to the request's first register, and the legacy (base class)
mapping is the identity. -/
theorem c5_get_offset_linear :
    (∀ (s : Int) (k : Nat), modbus_get_offset s (s + (k : Int)) = 2 * (k : Int)) ∧
    (∀ a : Int, protocol_get_offset a = a) := by
  constructor
  · intro s k
    unfold modbus_get_offset
    ring
  · intro a
    rfl

/-- C6 counterexample: on the empty byte string the length identity fails
for both framings (Python slicing yields the empty string, whose length 0
differs from 0 - 9 resp. 0 - 7). -/
theorem c6_counterexample :
    ¬ ((((aa55_trim_response []).length : Int) = (([] : List Nat).length : Int) - 9) ∧
       (((modbus_trim_response []).length : Int) = (([] : List Nat).length : Int) - 7)) := by
  decide

/-- C6 amended: the length identity `len(trim(raw)) = len(raw) - headerLen -
checksumLen` holds for the legacy framing whenever the raw response has at
least 9 bytes, and for the Modbus framing whenever it has at least 7. -/
theorem c6_amended_trim_length (raw : List Nat) :
    (9 ≤ raw.length → ((aa55_trim_response raw).length : Int) = (raw.length : Int) - 9) ∧
    (7 ≤ raw.length → ((modbus_trim_response raw).length : Int) = (raw.length : Int) - 7) := by
  constructor <;> intro h <;>
    simp only [aa55_trim_response, modbus_trim_response, List.length_drop, List.length_take] <;>
    omega

/-- C6 amended, witnessed at a 9-byte raw response. -/
theorem c6_amended_trim_length_witness :
    ((aa55_trim_response [0, 1, 2, 3, 4, 5, 6, 7, 8]).length : Int) =
      (([0, 1, 2, 3, 4, 5, 6, 7, 8] : List Nat).length : Int) - 9 :=
  (c6_amended_trim_length [0, 1, 2, 3, 4, 5, 6, 7, 8]).1 (by decide)

/-- C7: the legacy Read command with offset 0 and count 1 has request bytes
`AA55C07F011A03000001025D`; the response bytes `AA557FC0019A02001002EB`
validate against its expected response type `019A` (= 410) and trim to the
payload `0010`. -/
theorem c7_concrete_scenario :
    aa55_request (aa55_read_payload 0 1) =
      some [170, 85, 192, 127, 1, 26, 3, 0, 0, 1, 2, 93] ∧
    aa55_validate_response [170, 85, 127, 192, 1, 154, 2, 0, 16, 2, 235] (some 410) =
      some true ∧
    aa55_trim_response [170, 85, 127, 192, 1, 154, 2, 0, 16, 2, 235] = [0, 16] := by
  refine ⟨by decide, by decide, by decide⟩

/-- C8: `execute` surfaces exactly a `RequestFailed` error when the pending
result was cancelled or the connection was refused (message
"No valid response received ...") or when the resolved result carries no
value (message "No response received ..."); no caller of `execute` ever
observes a raw cancellation or connection-refused error. -/
theorem c8_execute_normalizes (hex : String) :
    command_execute hex .cancelled = .error (.requestFailed (noValidResponseMsg hex)) ∧
    command_execute hex .connectionRefused = .error (.requestFailed (noValidResponseMsg hex)) ∧
    command_execute hex (.value none) = .error (.requestFailed (noResponseMsg hex)) ∧
    (∀ o : SendOutcome,
      command_execute hex o ≠ .error .cancelled ∧
      command_execute hex o ≠ .error .connectionRefused) := by
  refine ⟨rfl, rfl, rfl, ?_⟩
  intro o
  cases o with
  | value d => cases d <;> simp [command_execute]
  | cancelled => simp [command_execute]
  | connectionRefused => simp [command_execute]
  | maxRetries => simp [command_execute]
  | rejected => simp [command_execute]

/-- C10 (code bug): the legacy validator is not exception-free.  The length
guard itself short-circuits, but when it fires the `logger.debug` call
eagerly evaluates `data[6] + 9`, raising `IndexError` (modelled as `none`)
for every input shorter than 7 bytes; inputs of length 7 or 8 do return
false as the claim expects. -/
theorem c10_validator_raises_on_short_input :
    aa55_validate_response [] (some 410) = none ∧
    aa55_validate_response [] none = none ∧
    aa55_validate_response [170, 85, 127, 192, 1, 154] (some 410) = none ∧
    aa55_validate_response [170, 85, 127, 192, 1, 154, 2] (some 410) = some false ∧
    aa55_validate_response [1, 2, 3, 4, 5, 6, 7, 8] none = some false := by
  refine ⟨by decide, by decide, by decide, by decide, by decide⟩

/-- Reading two bytes as signed 16-bit cannot equal the cast of `n ≤ 32767`
unless the bytes encode exactly `n`. -/
theorem bytesToIntSigned2_cast_ne (hi lo n : Nat) (hhi : hi < 256) (hlo : lo < 256)
    (hn : n ≤ 32767) (hne : hi * 256 + lo ≠ n) : (n : Int) ≠ bytesToIntSigned2 hi lo := by
  unfold bytesToIntSigned2
  by_cases hc : hi * 256 + lo < 32768
  · rw [if_pos hc]
    intro hEq
    have h3 : n = hi * 256 + lo := by exact_mod_cast hEq
    exact hne h3.symm
  · rw [if_neg hc]
    intro hEq
    have h2 : ((hi * 256 + lo : Nat) : Int) = (n : Int) + 65536 := by push_cast at hEq ⊢; omega
    have h3 : hi * 256 + lo = n + 65536 := by exact_mod_cast h2
    omega

set_option maxRecDepth 8000 in
/-- C4 counterexample: the 139-byte frame for response type `019A` with a
payload of 130 `FF` bytes satisfies every hypothesis of the claim — header
`AA 55 7F C0`, matching response type, length byte equal to the payload
length, trailing checksum equal to the byte sum of everything before it
(34009) reduced modulo 2^16 — yet the validator returns false: it compares
that sum against the trailing bytes read as a *signed* 16-bit value
(-31527). -/
theorem c4_counterexample :
    (mkAa55Frame 1 154 (List.replicate 130 255)).take 4 = [170, 85, 127, 192] ∧
    (mkAa55Frame 1 154 (List.replicate 130 255)).getD 4 0 * 256 +
      (mkAa55Frame 1 154 (List.replicate 130 255)).getD 5 0 = 410 ∧
    (mkAa55Frame 1 154 (List.replicate 130 255)).getD 6 0 =
      (List.replicate 130 (255 : Nat)).length ∧
    (mkAa55Frame 1 154 (List.replicate 130 255)).length =
      (mkAa55Frame 1 154 (List.replicate 130 255)).getD 6 0 + 9 ∧
    ((mkAa55Frame 1 154 (List.replicate 130 255)).take
        ((mkAa55Frame 1 154 (List.replicate 130 255)).length - 2)).sum % 65536 =
      132 * 256 + 217 ∧
    (mkAa55Frame 1 154 (List.replicate 130 255)).drop
        ((mkAa55Frame 1 154 (List.replicate 130 255)).length - 2) = [132, 217] ∧
    aa55_validate_response (mkAa55Frame 1 154 (List.replicate 130 255)) (some 410) =
      some false := by
  refine ⟨by decide, by decide, by decide, by decide, by decide, by decide, by decide⟩

/-- C4 amended: the acceptance half of the claim holds under the extra
hypothesis that the frame byte sum (header + type + length byte + payload)
is at most 32767, so that the signed 16-bit reading of the stored checksum
equals the sum; and for such an accepted frame, flipping any single payload
byte, or either checksum byte, makes the validator return false. -/
theorem c4_amended_validate (rtHi rtLo : Nat) (payload : List Nat)
    (hrt : rtHi * 256 + rtLo < 32768)
    (hsum : aa55FrameSum rtHi rtLo payload ≤ 32767) :
    aa55_validate_response (mkAa55Frame rtHi rtLo payload) (some (rtHi * 256 + rtLo)) =
      some true ∧
    (∀ i b2, i < payload.length → b2 ≠ payload.getD i 0 →
      aa55_validate_response
        (mkAa55FrameCS rtHi rtLo (payload.set i b2)
          (aa55FrameSum rtHi rtLo payload % 65536 / 256)
          (aa55FrameSum rtHi rtLo payload % 65536 % 256))
        (some (rtHi * 256 + rtLo)) = some false) ∧
    (∀ b2, b2 < 256 → b2 ≠ aa55FrameSum rtHi rtLo payload % 65536 / 256 →
      aa55_validate_response
        (mkAa55FrameCS rtHi rtLo payload b2 (aa55FrameSum rtHi rtLo payload % 65536 % 256))
        (some (rtHi * 256 + rtLo)) = some false) ∧
    (∀ b2, b2 < 256 → b2 ≠ aa55FrameSum rtHi rtLo payload % 65536 % 256 →
      aa55_validate_response
        (mkAa55FrameCS rtHi rtLo payload (aa55FrameSum rtHi rtLo payload % 65536 / 256) b2)
        (some (rtHi * 256 + rtLo)) = some false) := by
  have hr : ((rtHi * 256 + rtLo : Nat) : Int) = bytesToIntSigned2 rtHi rtLo := by
    unfold bytesToIntSigned2
    rw [if_pos hrt]
    push_cast
    ring
  have hmod : aa55FrameSum rtHi rtLo payload % 65536 = aa55FrameSum rtHi rtLo payload :=
    Nat.mod_eq_of_lt (by omega)
  have hsigned :
      bytesToIntSigned2 (aa55FrameSum rtHi rtLo payload % 65536 / 256)
        (aa55FrameSum rtHi rtLo payload % 65536 % 256) =
      (aa55FrameSum rtHi rtLo payload : Int) := by
    unfold bytesToIntSigned2
    rw [if_pos (by omega)]
    push_cast
    omega
  refine ⟨?_, ?_, ?_, ?_⟩
  · unfold mkAa55Frame
    rw [aa55_validate_mkCS _ _ _ _ _ _ hr, if_pos hsigned.symm]
  · intro i b2 hi2 hb2
    rw [aa55_validate_mkCS _ _ _ _ _ _ hr, if_neg]
    rw [hsigned]
    have hset := list_sum_set payload i b2 hi2
    have hlen : (payload.set i b2).length = payload.length := List.length_set payload i b2
    unfold aa55FrameSum
    rw [hlen]
    intro hEq
    have hEq2 : 574 + rtHi + rtLo + payload.length + (payload.set i b2).sum =
        574 + rtHi + rtLo + payload.length + payload.sum := by exact_mod_cast hEq
    have hgd : payload.getD i 0 = payload.getD i 0 := rfl
    omega
  · intro b2 hb256 hbne
    rw [aa55_validate_mkCS _ _ _ _ _ _ hr, if_neg]
    exact bytesToIntSigned2_cast_ne b2 _ _ hb256 (by omega) (by omega) (by omega)
  · intro b2 hb256 hbne
    rw [aa55_validate_mkCS _ _ _ _ _ _ hr, if_neg]
    exact bytesToIntSigned2_cast_ne _ b2 _ (by omega) hb256 (by omega) (by omega)

/-- C4 amended, witnessed on the concrete frame for type `019A` with
payload `0010` (accepted), and the same frame with its first payload byte
flipped from 0 to 1 (rejected). -/
theorem c4_amended_validate_witness :
    aa55_validate_response (mkAa55Frame 1 154 [0, 16]) (some (1 * 256 + 154)) = some true ∧
    aa55_validate_response
      (mkAa55FrameCS 1 154 ([0, 16].set 0 1)
        (aa55FrameSum 1 154 [0, 16] % 65536 / 256)
        (aa55FrameSum 1 154 [0, 16] % 65536 % 256))
      (some (1 * 256 + 154)) = some false :=
  ⟨(c4_amended_validate 1 154 [0, 16] (by decide) (by decide)).1,
   (c4_amended_validate 1 154 [0, 16] (by decide) (by decide)).2.1 0 1 (by decide) (by decide)⟩

/-! ## UDP session lemmas -/

theorem udp_fire_timers_succ (n : Nat) (s : UdpState) :
    udp_fire_timers (n + 1) s = udp_retry_mechanism (udp_fire_timers n s) := by
  induction n generalizing s with
  | zero => rfl
  | succ m ih =>
    have h1 : udp_fire_timers (m + 2) s = udp_fire_timers (m + 1) (udp_retry_mechanism s) := rfl
    rw [h1, ih]
    rfl

/-- While at most `R` timer firings have happened and no datagram arrived,
the request is still pending and exactly `k + 1` transmissions were made. -/
theorem udp_run_pending (R k : Nat) (hk : k ≤ R) :
    udp_fire_timers k (udp_start R) =
      { retries := R, retry := k, transportOpen := true, future := .pending,
        sentCount := k + 1, timersArmed := k + 1 } := by
  induction k with
  | zero => rfl
  | succ m ih =>
    have hm : m ≤ R := by omega
    rw [udp_fire_timers_succ, ih hm]
    unfold udp_retry_mechanism
    rw [if_neg (by simp [FutureState.done])]
    rw [if_pos (by simp; omega)]
    rfl

/-- C1 counterexample (retries = 3): a single datagram classified invalid
leaves the session with a cancelled pending result after only 2
transmissions, the state is terminal under further timer firings, and a
cancelled result surfaces through `execute` as `RequestFailed`, not as a
max-retries failure. -/
theorem c1_counterexample :
    (udp_datagram_received .invalid [0] (udp_start 3)).future = .cancelled ∧
    (udp_datagram_received .invalid [0] (udp_start 3)).future ≠
      .exception .maxRetries ∧
    (udp_datagram_received .invalid [0] (udp_start 3)).sentCount = 2 ∧
    udp_retry_mechanism (udp_datagram_received .invalid [0] (udp_start 3)) =
      udp_datagram_received .invalid [0] (udp_start 3) ∧
    command_execute "aa55c07f" SendOutcome.cancelled =
      .error (.requestFailed (noValidResponseMsg "aa55c07f")) := by
  refine ⟨by decide, by decide, by decide, by decide, rfl⟩

/-- C1 amended: when no datagram arrives at all, `execute` fails with
`MaxRetriesExceeded` after exactly R+1 transmissions (with the request
still pending after each of the first R timer firings); but when a datagram
arrives and is classified invalid, the session resends once (2 transmissions
so far), then closes the transport, cancelling the pending result, so
`execute` fails with `RequestFailed` instead of `MaxRetriesExceeded`. -/
theorem c1_amended_udp_retry (R : Nat) (d : List Nat) (hex : String) :
    (udp_fire_timers (R + 1) (udp_start R)).future = .exception .maxRetries ∧
    (udp_fire_timers (R + 1) (udp_start R)).sentCount = R + 1 ∧
    (∀ k, k ≤ R → (udp_fire_timers k (udp_start R)).future = .pending ∧
      (udp_fire_timers k (udp_start R)).sentCount = k + 1) ∧
    outcomeOfFuture (udp_fire_timers (R + 1) (udp_start R)).future = some .maxRetries ∧
    command_execute hex SendOutcome.maxRetries = .error .maxRetries ∧
    (udp_datagram_received .invalid d (udp_start R)).future = .cancelled ∧
    (udp_datagram_received .invalid d (udp_start R)).sentCount = 2 ∧
    command_execute hex SendOutcome.cancelled =
      .error (.requestFailed (noValidResponseMsg hex)) := by
  have hfinal : udp_fire_timers (R + 1) (udp_start R) =
      { retries := R, retry := R, transportOpen := false,
        future := .exception .maxRetries, sentCount := R + 1, timersArmed := R + 1 } := by
    rw [udp_fire_timers_succ, udp_run_pending R R le_rfl]
    unfold udp_retry_mechanism udp_close_transport
    simp [FutureState.done]
  have hinv : udp_datagram_received .invalid d (udp_start R) =
      { retries := R, retry := 1, transportOpen := false, future := .cancelled,
        sentCount := 2, timersArmed := 2 } := by
    unfold udp_start udp_datagram_received udp_send_one udp_close_transport
    simp [FutureState.done]
  refine ⟨by rw [hfinal], by rw [hfinal], ?_, by rw [hfinal]; rfl, rfl,
    by rw [hinv], by rw [hinv], rfl⟩
  intro k hk
  rw [udp_run_pending R k hk]
  exact ⟨rfl, rfl⟩

/-- C1 amended, witnessed at R = 2: after 2 of the 3 allowed transmissions
the request is still pending. -/
theorem c1_amended_udp_retry_witness :
    (udp_fire_timers 2 (udp_start 2)).future = .pending ∧
    (udp_fire_timers 2 (udp_start 2)).sentCount = 3 :=
  (c1_amended_udp_retry 2 [0] "ab").2.2.1 2 (by decide)

/-- C2 counterexample (retries = 3): on an invalid datagram a fresh timeout
timer *is* armed (the resend goes through `_send_request`, which always
calls `call_later`), and the pending result does *not* remain pending: the
unconditional `_close_transport()` at the end of `datagram_received`
cancels it. -/
theorem c2_counterexample :
    (udp_datagram_received .invalid [1] (udp_start 3)).timersArmed =
      (udp_start 3).timersArmed + 1 ∧
    (udp_datagram_received .invalid [1] (udp_start 3)).future ≠ .pending := by
  refine ⟨by decide, by decide⟩

/-- C2 amended: on a datagram whose validation returns false, the session
increments the retry counter and resends the same command, arming a fresh
timeout timer for the resend; it then unconditionally closes the transport,
which cancels the pending result, and the state is terminal (a later timer
firing changes nothing). -/
theorem c2_amended_invalid_datagram (s : UdpState) (d : List Nat)
    (h : s.future = .pending) :
    (udp_datagram_received .invalid d s).retry = s.retry + 1 ∧
    (udp_datagram_received .invalid d s).sentCount = s.sentCount + 1 ∧
    (udp_datagram_received .invalid d s).timersArmed = s.timersArmed + 1 ∧
    (udp_datagram_received .invalid d s).future = .cancelled ∧
    (udp_datagram_received .invalid d s).transportOpen = false ∧
    udp_retry_mechanism (udp_datagram_received .invalid d s) =
      udp_datagram_received .invalid d s := by
  obtain ⟨R, r, t, f, sc, ta⟩ := s
  have hf : f = FutureState.pending := h
  subst hf
  simp [udp_datagram_received, udp_send_one, udp_close_transport, udp_retry_mechanism,
    FutureState.done]

/-- C2 amended, witnessed on a fresh session with retries = 2. -/
theorem c2_amended_invalid_datagram_witness :
    (udp_datagram_received .invalid [1] (udp_start 2)).future = .cancelled :=
  (c2_amended_invalid_datagram (udp_start 2) [1] rfl).2.2.2.1

/-! ## TCP session lemmas -/

theorem tcp_refused_steps (k : Nat) (s : TcpState) (rest : List TcpAttempt)
    (h : s.retry + k ≤ s.retries) :
    tcp_send_request (List.replicate k .refused ++ rest) s =
      tcp_send_request rest
        { s with retry := s.retry + k, connectAttempts := s.connectAttempts + k } := by
  induction k generalizing s with
  | zero => simp
  | succ m ih =>
    obtain ⟨R, r, c, f, ca⟩ := s
    have h2 : r + (m + 1) ≤ R := h
    rw [show List.replicate (m + 1) TcpAttempt.refused ++ rest =
        TcpAttempt.refused :: (List.replicate m TcpAttempt.refused ++ rest) by
      simp [List.replicate_succ]]
    simp only [tcp_send_request]
    rw [if_pos (show r < R by omega)]
    show tcp_send_request (List.replicate m TcpAttempt.refused ++ rest)
        ⟨R, r + 1, c, f, ca + 1⟩ =
      tcp_send_request rest ⟨R, r + (m + 1), c, f, ca + (m + 1)⟩
    rw [ih ⟨R, r + 1, c, f, ca + 1⟩ (show r + 1 + m ≤ R by omega)]
    show tcp_send_request rest ⟨R, r + 1 + m, c, f, ca + 1 + m⟩ =
      tcp_send_request rest ⟨R, r + (m + 1), c, f, ca + (m + 1)⟩
    rw [show r + 1 + m = r + (m + 1) by omega, show ca + 1 + m = ca + (m + 1) by omega]

theorem tcp_refused_exhausted (s : TcpState) (rest : List TcpAttempt)
    (h : s.retries ≤ s.retry) :
    tcp_send_request (.refused :: rest) s =
      tcp_max_retries_reached { s with connectAttempts := s.connectAttempts + 1 } := by
  unfold tcp_send_request
  rw [if_neg (by omega)]

/-- C9: a successful exchange on the TCP session resets the consecutive
failure counter to 0 (from any prior value) and leaves the connection open;
a timer firing after the completed exchange also keeps the counter 0 and
the connection open.  Consequently, a later call starting from counter 0
against a refusing endpoint has the full budget: it still succeeds after
any `k ≤ R` consecutive connection refusals (having made `k + 1` connect
attempts), while `R + 1` refusals produce the max-retries failure. -/
theorem c9_tcp_retry_budget (s : TcpState) (d d2 : List Nat) (rest : List TcpAttempt)
    (R k : Nat) (hk : k ≤ R) :
    (tcp_send_request (.ok d :: rest) s).retry = 0 ∧
    (tcp_send_request (.ok d :: rest) s).connected = true ∧
    (tcp_send_request (.ok d :: rest) s).future = .result d ∧
    (tcp_timeout_mechanism (tcp_send_request (.ok d :: rest) s)).retry = 0 ∧
    (tcp_timeout_mechanism (tcp_send_request (.ok d :: rest) s)).connected = true ∧
    tcp_send_request (List.replicate k .refused ++ [.ok d2])
        { retries := R, retry := 0, connected := false, future := .pending,
          connectAttempts := 0 } =
      { retries := R, retry := 0, connected := true, future := .result d2,
        connectAttempts := k + 1 } ∧
    (tcp_send_request (List.replicate (R + 1) .refused)
        { retries := R, retry := 0, connected := false, future := .pending,
          connectAttempts := 0 }).future = .exception .maxRetries ∧
    (tcp_send_request (List.replicate (R + 1) .refused)
        { retries := R, retry := 0, connected := false, future := .pending,
          connectAttempts := 0 }).connectAttempts = R + 1 := by
  have hok : tcp_send_request (.ok d :: rest) s =
      { s with connected := true, retry := 0, future := .result d,
               connectAttempts := s.connectAttempts + 1 } := rfl
  have hsucc : tcp_send_request (List.replicate k .refused ++ [.ok d2])
      ({ retries := R, retry := 0, connected := false, future := .pending,
         connectAttempts := 0 } : TcpState) =
      { retries := R, retry := 0, connected := true, future := .result d2,
        connectAttempts := k + 1 } := by
    rw [tcp_refused_steps k _ _ (by simpa using hk)]
    show tcp_send_request [TcpAttempt.ok d2] ⟨R, 0 + k, false, .pending, 0 + k⟩ = _
    simp only [tcp_send_request]
    simp [Nat.zero_add]
  have hfail : tcp_send_request (List.replicate (R + 1) .refused)
      ({ retries := R, retry := 0, connected := false, future := .pending,
         connectAttempts := 0 } : TcpState) =
      tcp_max_retries_reached ⟨R, 0 + R, false, .pending, 0 + R + 1⟩ := by
    rw [show List.replicate (R + 1) TcpAttempt.refused =
        List.replicate R TcpAttempt.refused ++ [TcpAttempt.refused] by
      rw [List.replicate_succ']]
    rw [tcp_refused_steps R _ _ (by simp)]
    show tcp_send_request [TcpAttempt.refused] ⟨R, 0 + R, false, .pending, 0 + R⟩ = _
    rw [tcp_refused_exhausted _ _ (by simp)]
  refine ⟨by rw [hok], by rw [hok], by rw [hok], ?_, ?_, hsucc, ?_, ?_⟩
  · rw [hok]
    unfold tcp_timeout_mechanism
    rw [if_pos (by simp [FutureState.done])]
  · rw [hok]
    unfold tcp_timeout_mechanism
    rw [if_pos (by simp [FutureState.done])]
  · rw [hfail]
    rfl
  · rw [hfail]
    simp [tcp_max_retries_reached, tcp_close_transport, FutureState.done]

/-- C9 witnessed at R = 2: a refused call after a success (counter 0) still
succeeds after 2 consecutive refusals, on its third connect attempt. -/
theorem c9_tcp_retry_budget_witness :
    tcp_send_request (List.replicate 2 .refused ++ [.ok [6]])
        { retries := 2, retry := 0, connected := false, future := .pending,
          connectAttempts := 0 } =
      { retries := 2, retry := 0, connected := true, future := .result [6],
        connectAttempts := 3 } :=
  (c9_tcp_retry_budget ⟨2, 0, false, .pending, 0⟩ [5] [6] [] 2 2 (by decide)).2.2.2.2.2.1
